import Mathlib

/-!
Verification of the match discovery and interaction subsystem of the
pathtoforever dating-platform backend.

The development shallowly embeds the Python sources:

- `utils/matching.py` — cosine similarity, candidate ranking
  (`get_potential_matches`), compatibility percentage
  (`calculate_compatibility_score`), and the Gemini explanation wrapper
  (`generate_match_explanation`);
- `resources/match.py` — the discovery handler (`DiscoverMatchesResource.get`,
  embedded as `discover`) and the like/pass handler
  (`MatchActionResource.post`, embedded as `matchActionPost`);
- `models/matches.py` — the `Match` record;
- `utils/cache.py` — discovery-cache lookup, store and per-user invalidation.

Modelling conventions:

- User ids are Python strings ordered lexicographically by `sorted()`; they
  are embedded as an arbitrary decidable linear order `ID`.
- Python floats are embedded as exact numbers: similarity inputs and scores
  as `ℚ`, the value of the cosine similarity (which involves a square root)
  as `ℝ`.  The similarity function used inside the ranking pipeline is a
  parameter of the data environment, since its numeric value is irrelevant
  to the pipeline's control flow and ordering logic.
- Fallible external calls (database queries, the generative-AI call) are
  embedded as `Except Unit` values carried by an explicit environment;
  Python `try/except` blocks become `match` on those values.
-/

namespace PathToForever

/-! ### Numeric helpers -/

/-- Python's `int()` applied to a real number truncates toward zero:
floor for nonnegative arguments, ceiling for negative ones. -/
def pyInt (q : ℚ) : ℤ := if 0 ≤ q then ⌊q⌋ else ⌈q⌉

/-- `utils/matching.py`, `calculate_compatibility_score`:
`score = int(similarity * 100); return max(0, min(100, score))`. -/
def calculate_compatibility_score (similarity : ℚ) : ℤ :=
  max 0 (min 100 (pyInt (similarity * 100)))

/-- Sum of pairwise products, `np.dot(vec1, vec2)` on equal-length vectors. -/
def dotList (a b : List ℚ) : ℚ := (List.zipWith (· * ·) a b).sum

/-- Sum of squares of the entries; `np.linalg.norm(v)` is its square root,
and the norm is zero exactly when this sum is zero. -/
def normSq (a : List ℚ) : ℚ := (a.map fun x => x * x).sum

/-- `utils/matching.py`, `calculate_cosine_similarity`: the guarded quotient
`dot / (norm1 * norm2)`, returning `0.0` when either norm is zero.  The
norms are square roots, so the value lives in `ℝ`. -/
noncomputable def calculate_cosine_similarity (embedding1 embedding2 : List ℚ) : ℝ :=
  let norm1 : ℝ := Real.sqrt (normSq embedding1)
  let norm2 : ℝ := Real.sqrt (normSq embedding2)
  if norm1 = 0 ∨ norm2 = 0 then 0
  else (dotList embedding1 embedding2 : ℝ) / (norm1 * norm2)

/-! ### The ranking sort

`matches_with_scores.sort(key=lambda x: x[1], reverse=True)` is CPython's
stable sort on the second component, descending.  A stable descending sort
is exactly a sort by the lexicographic key (score descending, original
position ascending), so the embedding enumerates the list, sorts by that
total relation, and forgets the positions again. -/

/-- Sort relation on position-tagged scored items: strictly larger score
first; on equal scores, smaller original position first. -/
def rankRel {α : Type} : ℕ × α × ℚ → ℕ × α × ℚ → Prop :=
  fun a b => b.2.2 < a.2.2 ∨ (a.2.2 = b.2.2 ∧ a.1 ≤ b.1)

instance {α : Type} : DecidableRel (rankRel (α := α)) := fun a b => by
  unfold rankRel; infer_instance

instance {α : Type} : IsTotal (ℕ × α × ℚ) rankRel where
  total a b := by
    unfold rankRel
    rcases lt_trichotomy a.2.2 b.2.2 with h | h | h
    · right; left; exact h
    · rcases Nat.le_total a.1 b.1 with h' | h'
      · left; right; exact ⟨h, h'⟩
      · right; right; exact ⟨h.symm, h'⟩
    · left; left; exact h

instance {α : Type} : IsTrans (ℕ × α × ℚ) rankRel where
  trans a b c hab hbc := by
    unfold rankRel at *
    rcases hab with h | ⟨he, hi⟩ <;> rcases hbc with h' | ⟨he', hi'⟩
    · exact Or.inl (h'.trans h)
    · exact Or.inl (he' ▸ h)
    · exact Or.inl (he ▸ h')
    · exact Or.inr ⟨he.trans he', hi.trans hi'⟩

/-- The position-tagged sorted list underlying the ranking sort. -/
def rankEnum {α : Type} (l : List (α × ℚ)) : List (ℕ × α × ℚ) :=
  l.enum.insertionSort rankRel

/-- `list.sort(key=lambda x: x[1], reverse=True)`: stable descending sort
by score. -/
def sortByScoreDesc {α : Type} (l : List (α × ℚ)) : List (α × ℚ) :=
  (rankEnum l).map Prod.snd

/-! ### Data model

Only the columns read by the matching subsystem are embedded.  Omitted
bookkeeping columns (`uuid` primary keys, `created_at`, the stored
`ai_explanation`, photo lists, premium flags) are not touched by the
verified operations. -/

/-- The `match_status` enum of `models/matches.py`. -/
inductive MatchStatus : Type
  | pending
  | matched
  | declined
  | blocked
deriving DecidableEq, Repr

/-- The status string stored in the enum column / returned in responses. -/
def MatchStatus.toStr : MatchStatus → String
  | .pending => "pending"
  | .matched => "matched"
  | .declined => "declined"
  | .blocked => "blocked"

/-- A row of the `matches` table (`models/matches.py`, class `Match`). -/
structure Match (ID : Type) : Type where
  user_id_1 : ID
  user_id_2 : ID
  match_status : MatchStatus
  compatibility_score : ℤ
deriving DecidableEq, Repr

/-- A row of the profiles table, restricted to the fields the matching
subsystem reads. -/
structure Profile (ID : Type) : Type where
  user_id : ID
  age : ℤ
  gender : String
  bio : Option String
  interests : Option String
  location : Option String
  embedding : Option (List ℚ)
deriving DecidableEq, Repr

/-- A row of the users table, restricted to the fields read here. -/
structure User (ID : Type) : Type where
  id : ID
  name : String
deriving DecidableEq, Repr

/-! ### Discovery cache

`utils/cache.py` keys discovery results by
`matches:discover:{user_id}:{limit}:{min_age}:{max_age}:{gender}` and
`invalidate_user_cache(u)` deletes every key matching
`matches:discover:{u}:*` (the other two patterns belong to cache families
outside this subsystem).  The embedding stores one entry per structured
key; per-user invalidation drops every entry whose key names that user. -/

/-- The components of a `matches:discover:...` cache key. -/
structure DiscoverKey (ID : Type) : Type where
  user_id : ID
  lim : ℕ
  min_age : Option ℤ
  max_age : Option ℤ
  gender : Option String
deriving DecidableEq, Repr

/-- One annotated entry of a discovery response (`match_data` dict),
restricted to the fields the claims mention. -/
structure MatchEntry (ID : Type) : Type where
  user_id : ID
  name : String
  compatibility_score : ℤ
  ai_explanation : String
deriving DecidableEq, Repr

/-- The discovery-cache contents: structured key to cached `matches` list. -/
abbrev CacheState (ID : Type) : Type := List (DiscoverKey ID × List (MatchEntry ID))

section WithOrder

variable {ID : Type} [LinearOrder ID]

/-- `CacheManager.get` on a discovery key (a hit returns the stored list). -/
def cacheGet (c : CacheState ID) (k : DiscoverKey ID) :
    Option (List (MatchEntry ID)) :=
  (c.find? fun e => decide (e.1 = k)).map Prod.snd

/-- `CacheManager.set` on a discovery key (`setex` overwrites the key). -/
def cacheSet (c : CacheState ID) (k : DiscoverKey ID)
    (v : List (MatchEntry ID)) : CacheState ID :=
  (k, v) :: c.filter fun e => decide (e.1 ≠ k)

/-- `CacheManager.invalidate_user_cache`: deletes every discovery entry
whose key names the given user. -/
def invalidate_user_cache (u : ID) (c : CacheState ID) : CacheState ID :=
  c.filter fun e => decide (e.1.user_id ≠ u)

/-! ### The match action handler -/

/-- Response of the match-action handler: an error response, or a success
payload carrying the resulting status string and the `is_match` flag. -/
inductive ActionResp : Type
  | ok (status : String) (is_match : Bool)
  | err (message : String) (code : ℕ)
deriving DecidableEq, Repr

/-- Result of one call to the match-action handler: the new `matches`
table, the new discovery-cache contents, and the HTTP response. -/
structure ActionResult (ID : Type) : Type where
  matches_table : List (Match ID)
  cache : CacheState ID
  resp : ActionResp

/-- `resources/match.py`, `MatchActionResource.post`, embedded over an
explicit `matches` table and discovery cache.  `profiles` and `sim` stand
for the profile lookups and the float cosine similarity used only to fill
in the compatibility score of a fresh like. -/
def matchActionPost (profiles : ID → Option (Profile ID))
    (sim : List ℚ → List ℚ → ℚ) (st : List (Match ID)) (cache : CacheState ID)
    (user_id target_user_id : ID) (action : String) : ActionResult ID :=
  if ¬(action = "like" ∨ action = "pass" ∨ action = "declined") then
    ⟨st, cache, .err "Invalid action. Must be 'like' or 'pass'" 400⟩
  else if target_user_id = user_id then
    ⟨st, cache, .err "Cannot match with yourself" 400⟩
  else
    let user_id_1 := min user_id target_user_id
    let user_id_2 := max user_id target_user_id
    match st.find? fun m =>
        decide (m.user_id_1 = user_id_1 ∧ m.user_id_2 = user_id_2) with
    | some existing_match =>
      let newStatus : MatchStatus :=
        if action = "like" then
          if existing_match.match_status = .pending then
            if user_id = user_id_2 ∧ existing_match.user_id_1 = user_id_1 then
              .matched
            else existing_match.match_status
          else existing_match.match_status
        else .declined
      let updated := { existing_match with match_status := newStatus }
      let st' := st.map fun m =>
        if m.user_id_1 = user_id_1 ∧ m.user_id_2 = user_id_2 then updated else m
      let cache' := invalidate_user_cache target_user_id
        (invalidate_user_cache user_id cache)
      ⟨st', cache', .ok newStatus.toStr (decide (newStatus = .matched))⟩
    | none =>
      if action = "like" then
        let compatibility : ℤ :=
          match profiles user_id, profiles target_user_id with
          | some up, some tp =>
            match up.embedding, tp.embedding with
            | some e1, some e2 => calculate_compatibility_score (sim e1 e2)
            | _, _ => 0
          | _, _ => 0
        let new_match : Match ID := ⟨user_id_1, user_id_2, .pending, compatibility⟩
        let cache' := invalidate_user_cache target_user_id
          (invalidate_user_cache user_id cache)
        ⟨st ++ [new_match], cache', .ok "pending" false⟩
      else
        let new_match : Match ID := ⟨user_id_1, user_id_2, .declined, 0⟩
        ⟨st ++ [new_match], invalidate_user_cache user_id cache,
          .ok "declined" false⟩

/-! ### The discovery pipeline -/

/-- The external collaborators of the discovery pipeline: the users,
profiles and matches stores (each access may fail), the similarity
function (the float cosine, abstracted to its exact value), and the
generative explanation service with its configured API key. -/
structure DataEnv (ID : Type) : Type where
  getUser : ID → Except Unit (Option (User ID))
  getProfile : ID → Except Unit (Option (Profile ID))
  scanProfiles : Except Unit (List (Profile ID))
  matchTable : Except Unit (List (Match ID))
  sim : List ℚ → List ℚ → ℚ
  geminiKey : Bool
  explain : Profile ID → Profile ID → ℚ → Except Unit String

/-- The candidate query of `get_potential_matches`: exclude self, require
an embedding, and apply the optional age and gender filters (`none` models
an absent or falsy query parameter). -/
def candidateFilter (user_id : ID) (min_age max_age : Option ℤ)
    (preferred_gender : Option String) (p : Profile ID) : Bool :=
  decide (p.user_id ≠ user_id) && p.embedding.isSome &&
  (match min_age with | none => true | some m => decide (m ≤ p.age)) &&
  (match max_age with | none => true | some m => decide (p.age ≤ m)) &&
  (match preferred_gender with | none => true | some g => decide (p.gender = g))

/-- `utils/matching.py`, `get_potential_matches`: load the requester's
profile, scan filtered candidates, score each by similarity, sort
descending and truncate.  The whole body is wrapped in `try/except` that
returns the empty list on any failure. -/
def get_potential_matches (env : DataEnv ID) (user_id : ID) (lim : ℕ)
    (min_age max_age : Option ℤ) (preferred_gender : Option String) :
    List (Profile ID × ℚ) :=
  match (do
    let prof? ← env.getProfile user_id
    match prof? with
    | none => pure []
    | some user_profile =>
      match user_profile.embedding with
      | none => pure []
      | some uemb => do
        let table ← env.scanProfiles
        let candidates :=
          table.filter (candidateFilter user_id min_age max_age preferred_gender)
        if candidates = [] then
          pure []
        else
          let matches_with_scores := candidates.filterMap fun c =>
            c.embedding.map fun e => (c, env.sim uemb e)
          pure ((sortByScoreDesc matches_with_scores).take lim) :
      Except Unit (List (Profile ID × ℚ))) with
  | .ok r => r
  | .error _ => []

/-- `utils/matching.py`, `generate_match_explanation`: without an API key
return the unavailable notice; otherwise attempt the service call (prompt
construction and the LLM round trip are abstracted into `svc`), strip and
truncate a successful response, and fall back to the fixed string on any
failure. -/
def generate_match_explanation (geminiKey : Bool) (svc : Except Unit String) :
    String :=
  if geminiKey = false then "AI matching is currently unavailable."
  else
    match svc with
    | .ok t =>
      let explanation := t.trim
      if 200 < explanation.length then explanation.take 197 ++ "..." else explanation
    | .error _ =>
      "You both share similar interests and values, making you a great potential match!"

/-- Membership in `existing_match_ids`: both ids of every record involving
the requester are collected and the requester's own id is discarded. -/
def inExistingSet (user_id : ID) (existing : List (Match ID)) (x : ID) : Bool :=
  decide (x ≠ user_id) &&
    existing.any fun m => decide (m.user_id_1 = x) || decide (m.user_id_2 = x)

/-- The existing-interaction filter of `DiscoverMatchesResource.get`
(lines 89-106): query the records involving the requester and drop every
candidate whose id is in `existing_match_ids`. -/
def filterPotential (user_id : ID) (table : List (Match ID))
    (potential : List (Profile ID × ℚ)) : List (Profile ID × ℚ) :=
  let existing_matches := table.filter fun m =>
    decide (m.user_id_1 = user_id) || decide (m.user_id_2 = user_id)
  potential.filter fun ps => !(inExistingSet user_id existing_matches ps.1.user_id)

/-- The annotation loop of the discovery handler: look up each candidate's
user row (skipping absent users), generate the explanation (the requester
and candidate names feed only the abstracted prompt) and the compatibility
percentage. -/
def buildMatchesData (env : DataEnv ID) (user_profile : Profile ID) :
    List (Profile ID × ℚ) → Except Unit (List (MatchEntry ID))
  | [] => .ok []
  | (p, s) :: rest => do
    let match_user? ← env.getUser p.user_id
    match match_user? with
    | none => buildMatchesData env user_profile rest
    | some match_user => do
      let ai_explanation :=
        generate_match_explanation env.geminiKey (env.explain user_profile p s)
      let compatibility := calculate_compatibility_score s
      let restEntries ← buildMatchesData env user_profile rest
      .ok (⟨p.user_id, match_user.name, compatibility, ai_explanation⟩ :: restEntries)

/-- A discovery response: a success payload (the `matches` list and the
message) or an error response. -/
inductive DiscoverResp (ID : Type) : Type
  | ok (payload : List (MatchEntry ID)) (message : String)
  | err (message : String) (code : ℕ)
deriving DecidableEq, Repr

/-- Whether a discovery response is a success response. -/
def DiscoverResp.isOk : DiscoverResp ID → Bool
  | .ok _ _ => true
  | .err _ _ => false

/-- The `matches` list of a success response (empty for errors). -/
def DiscoverResp.payloadOf : DiscoverResp ID → List (MatchEntry ID)
  | .ok l _ => l
  | .err _ _ => []

/-- Replace each entry's explanation with a fixed string (specification
helper used to relate runs of `discover` that differ only in the
explanation service). -/
def DiscoverResp.withExplanations {ID : Type} (fb : String) :
    DiscoverResp ID → DiscoverResp ID
  | .ok l m => .ok (l.map fun e => { e with ai_explanation := fb }) m
  | .err m c => .err m c

/-- `resources/match.py`, `DiscoverMatchesResource.get`: cache lookup,
requester checks, over-fetched ranking, existing-interaction filter,
annotation and caching.  Any uncaught data-layer failure is turned into
the generic 500 response by the surrounding `try/except`. -/
def discover (env : DataEnv ID) (cache : CacheState ID) (user_id : ID)
    (lim : ℕ) (min_age max_age : Option ℤ) (gender : Option String) :
    DiscoverResp ID × CacheState ID :=
  let cache_key : DiscoverKey ID := ⟨user_id, lim, min_age, max_age, gender⟩
  match cacheGet cache cache_key with
  | some cached => (.ok cached "Matches retrieved successfully (cached)", cache)
  | none =>
    match (do
      let user? ← env.getUser user_id
      match user? with
      | none => pure ((.err "User not found" 404 : DiscoverResp ID), cache)
      | some _user => do
        let prof? ← env.getProfile user_id
        match prof? with
        | none => pure ((.err "Profile not found" 404 : DiscoverResp ID), cache)
        | some user_profile =>
          match user_profile.embedding with
          | none =>
            pure ((.err "Please complete your profile to get matches" 400 :
              DiscoverResp ID), cache)
          | some _ => do
            let potential :=
              get_potential_matches env user_id (lim * 2) min_age max_age gender
            if potential = [] then
              pure ((.ok [] "No matches found at this time. Check back soon!" :
                DiscoverResp ID), cache)
            else do
              let table ← env.matchTable
              let filtered := (filterPotential user_id table potential).take lim
              if filtered = [] then
                pure ((.ok [] "No new matches available right now." :
                  DiscoverResp ID), cache)
              else do
                let matches_data ← buildMatchesData env user_profile filtered
                let cache' := cacheSet cache cache_key matches_data
                pure ((.ok matches_data
                  ("Found " ++ toString matches_data.length ++ " potential matches!") :
                  DiscoverResp ID), cache') :
        Except Unit (DiscoverResp ID × CacheState ID)) with
    | .ok rc => rc
    | .error _ => ((.err "Failed to find matches" 500 : DiscoverResp ID), cache)

/-! ### Invariants and specification predicates -/

/-- The canonical-pair invariant of the `matches` table: each record is
strictly ordered and no two records share the same ordered pair (together
these give at most one record per unordered pair and no self-pairs). -/
def PairInv (st : List (Match ID)) : Prop :=
  (∀ m ∈ st, m.user_id_1 < m.user_id_2) ∧
  st.Pairwise fun m m' => ¬(m.user_id_1 = m'.user_id_1 ∧ m.user_id_2 = m'.user_id_2)

/-- The record `m` pairs the requester with `x` (in either position). -/
def pairedWith (user_id x : ID) (m : Match ID) : Prop :=
  (m.user_id_1 = user_id ∧ m.user_id_2 = x) ∨
  (m.user_id_2 = user_id ∧ m.user_id_1 = x)

instance (user_id x : ID) (m : Match ID) : Decidable (pairedWith user_id x m) := by
  unfold pairedWith; infer_instance

end WithOrder

/-! ### Concrete sample data for witnesses and counterexamples -/

/-- A sample profile with an embedding, used in concrete evaluations. -/
def sampleProfile (i : ℕ) : Profile ℕ :=
  ⟨i, 30, "f", none, none, none, some [1]⟩

/-- A fully working environment over numeric ids. -/
def envBase : DataEnv ℕ where
  getUser := fun i => .ok (some ⟨i, "U"⟩)
  getProfile := fun i => .ok (some (sampleProfile i))
  scanProfiles := .ok [sampleProfile 2, sampleProfile 3, sampleProfile 4]
  matchTable := .ok []
  sim := fun _ _ => 0
  geminiKey := true
  explain := fun _ _ _ => .ok "Great pair"

/-- The base environment with the candidate scan unreachable. -/
def envScanDown : DataEnv ℕ := { envBase with scanProfiles := .error () }

/-- The base environment with the interaction store unreachable. -/
def envTableDown : DataEnv ℕ := { envBase with matchTable := .error () }

/-- The base environment with no profile row for any user. -/
def envNoProfile : DataEnv ℕ := { envBase with getProfile := fun _ => .ok none }

/-- The base environment whose profiles lack embeddings. -/
def envNoEmbedding : DataEnv ℕ :=
  { envBase with getProfile := fun i => .ok (some { sampleProfile i with embedding := none }) }

/-- Interaction records for the C5 example: `(U, A)` declined, `(U, B)`
matched, with `U = 1`, `A = 2`, `B = 3`. -/
def tableC5 : List (Match ℕ) := [⟨1, 2, .declined, 0⟩, ⟨1, 3, .matched, 0⟩]

/-- Ranked candidates for the C5 example: `A = 2`, `B = 3`, `C = 4`. -/
def potentialC5 : List (Profile ℕ × ℚ) :=
  [(sampleProfile 2, 9/10), (sampleProfile 3, 1/2), (sampleProfile 4, 3/10)]

/-! ### Theorems -/

theorem pyInt_mono : Monotone pyInt := by
  intro a b hab
  unfold pyInt
  split_ifs with ha hb hb
  · exact Int.floor_mono hab
  · exact absurd (ha.trans hab) hb
  · calc ⌈a⌉ ≤ 0 := Int.ceil_le.mpr (by exact_mod_cast le_of_not_le ha)
      _ ≤ ⌊b⌋ := Int.floor_nonneg.mpr hb
  · exact Int.ceil_mono hab

/-- C2 counterexample: at similarity `0.755` the implementation truncates
`75.5` to `75`, while `round(similarity × 100)` clamped gives `76`. -/
theorem compatibility_not_round :
    calculate_compatibility_score (151/200) ≠
      max 0 (min 100 (round ((151/200 : ℚ) * 100))) := by
  have h1 : calculate_compatibility_score (151/200) = 75 := by
    norm_num [calculate_compatibility_score, pyInt]
  have h2 : round ((151/200 : ℚ) * 100) = 76 := by
    norm_num [round_eq]
  rw [h1, h2]
  norm_num

/-- C2 (amended): the compatibility percentage equals `similarity × 100`
truncated toward zero and clamped to `[0, 100]`; it is monotone in the
similarity, always lies in `[0, 100]`, and maps `1.0 ↦ 100`, `-1.0 ↦ 0`
and `0.755 ↦ 75`. -/
theorem compatibility_score_spec :
    Monotone calculate_compatibility_score ∧
    (∀ s : ℚ, 0 ≤ calculate_compatibility_score s ∧
      calculate_compatibility_score s ≤ 100) ∧
    calculate_compatibility_score 1 = 100 ∧
    calculate_compatibility_score (-1) = 0 ∧
    calculate_compatibility_score (151/200) = 75 := by
  refine ⟨?_, ?_, ?_, ?_, ?_⟩
  · intro a b hab
    unfold calculate_compatibility_score
    exact max_le_max le_rfl (min_le_min le_rfl (pyInt_mono (by gcongr)))
  · intro s
    refine ⟨le_max_left _ _, ?_⟩
    unfold calculate_compatibility_score
    exact max_le (by norm_num) (min_le_left _ _)
  · norm_num [calculate_compatibility_score, pyInt]
  · unfold calculate_compatibility_score
    rw [show ((-1 : ℚ) * 100) = ((-100 : ℤ) : ℚ) by norm_num,
      pyInt, if_neg (by norm_num), Int.ceil_intCast]
    norm_num
  · norm_num [calculate_compatibility_score, pyInt]

/-- Witness for the amended C2: monotonicity applied at `0 ≤ 1`. -/
theorem compatibility_score_spec_witness :
    calculate_compatibility_score 0 ≤ calculate_compatibility_score 1 :=
  compatibility_score_spec.1 (by norm_num)

/-- C7: on any two vectors of equal dimension, if either has zero norm
(equivalently, zero sum of squares) the similarity is exactly `0`;
the division is never reached. -/
theorem cosine_similarity_zero_norm (a b : List ℚ)
    (_hlen : a.length = b.length) (h : normSq a = 0 ∨ normSq b = 0) :
    calculate_cosine_similarity a b = 0 := by
  unfold calculate_cosine_similarity
  rcases h with h | h <;> rw [h] <;> simp [Real.sqrt_zero]

/-- Witness for C7 at `a = [1, 2]`, `b = [0, 0]`. -/
theorem cosine_similarity_zero_norm_witness :
    ([1, 2] : List ℚ).length = ([0, 0] : List ℚ).length ∧
      calculate_cosine_similarity [1, 2] [0, 0] = 0 :=
  ⟨rfl, cosine_similarity_zero_norm [1, 2] [0, 0] rfl
    (Or.inr (by norm_num [normSq]))⟩

/-- C6: the ranking sort returns a permutation of the position-tagged input
that is sorted under `rankRel` — scores descending, and equal scores in
original input order (stability) — hence the untagged output has descending
scores; on scores `[0.9, 0.1, 0.5]` with ids `X, Y, Z` the output order is
`[X, Z, Y]`. -/
theorem ranker_sorted_stable :
    (∀ (α : Type) (l : List (α × ℚ)),
      (rankEnum l).Perm l.enum ∧
      List.Sorted rankRel (rankEnum l) ∧
      List.Sorted (fun a b : α × ℚ => b.2 ≤ a.2) (sortByScoreDesc l)) ∧
    sortByScoreDesc [("X", (9 : ℚ)/10), ("Y", 1/10), ("Z", 1/2)] =
      [("X", (9 : ℚ)/10), ("Z", 1/2), ("Y", 1/10)] := by
  constructor
  · intro α l
    refine ⟨List.perm_insertionSort _ _, List.sorted_insertionSort _ _, ?_⟩
    exact List.Pairwise.map Prod.snd
      (fun a b hab => hab.elim le_of_lt (fun h => le_of_eq h.1.symm))
      (List.sorted_insertionSort _ _)
  · norm_num [sortByScoreDesc, rankEnum, rankRel, List.insertionSort,
      List.orderedInsert, List.enum]

/-- C1: the handler promotes a `pending` record to `matched` only when the
acting user is the lexicographically larger id of the pair (`user_id ==
user_id_2`), not when they are the second party to like — the record does
not store who initiated.  Trace: user 2 likes user 1 first, creating the
pending record on the canonical pair `(1, 2)`; then user 1, the second
party to like, likes back and the record stays `pending`; yet a repeated
like by user 2, the party who created the record, flips it to `matched`. -/
theorem like_back_does_not_match :
    let prof : ℕ → Option (Profile ℕ) := fun _ => none
    let sim : List ℚ → List ℚ → ℚ := fun _ _ => 0
    let r1 := matchActionPost prof sim [] [] 2 1 "like"
    r1.matches_table = [⟨1, 2, .pending, 0⟩] ∧
    (matchActionPost prof sim r1.matches_table [] 1 2 "like").matches_table =
      [⟨1, 2, .pending, 0⟩] ∧
    (matchActionPost prof sim r1.matches_table [] 2 1 "like").matches_table =
      [⟨1, 2, .matched, 0⟩] := by
  decide

theorem pairInv_map_ids {ID : Type} [LinearOrder ID] (st : List (Match ID))
    (f : Match ID → Match ID)
    (hids : ∀ m, (f m).user_id_1 = m.user_id_1 ∧ (f m).user_id_2 = m.user_id_2)
    (h : PairInv st) : PairInv (st.map f) := by
  constructor
  · intro x hx
    obtain ⟨m, hm, rfl⟩ := List.mem_map.mp hx
    rw [(hids m).1, (hids m).2]
    exact h.1 m hm
  · rw [List.pairwise_map]
    refine h.2.imp ?_
    intro a b hab hc
    exact hab ⟨by rw [← (hids a).1, ← (hids b).1]; exact hc.1,
      by rw [← (hids a).2, ← (hids b).2]; exact hc.2⟩

theorem pairInv_append {ID : Type} [LinearOrder ID] (st : List (Match ID))
    (m : Match ID) (h : PairInv st) (h1 : m.user_id_1 < m.user_id_2)
    (h2 : ∀ x ∈ st, ¬(x.user_id_1 = m.user_id_1 ∧ x.user_id_2 = m.user_id_2)) :
    PairInv (st ++ [m]) := by
  constructor
  · intro x hx
    rcases List.mem_append.mp hx with hx | hx
    · exact h.1 x hx
    · rw [List.mem_singleton.mp hx]
      exact h1
  · refine List.pairwise_append.mpr ⟨h.2, List.pairwise_singleton _ _, ?_⟩
    intro a ha b hb
    rw [List.mem_singleton.mp hb]
    exact h2 a ha

/-- C10: the match-action handler preserves the canonical-pair invariant —
every record it writes has `user_id_1 < user_id_2`, at most one record per
unordered pair survives — and a self-targeted action is rejected with a
400 error and writes nothing. -/
theorem match_action_pair_invariant {ID : Type} [LinearOrder ID]
    (profiles : ID → Option (Profile ID)) (sim : List ℚ → List ℚ → ℚ)
    (st : List (Match ID)) (cache : CacheState ID) (u t : ID) (act : String)
    (h : PairInv st) :
    PairInv (matchActionPost profiles sim st cache u t act).matches_table ∧
    (t = u → (matchActionPost profiles sim st cache u t act).matches_table = st ∧
      ∃ msg, (matchActionPost profiles sim st cache u t act).resp = .err msg 400) := by
  unfold matchActionPost
  by_cases hv : act = "like" ∨ act = "pass" ∨ act = "declined"
  · rw [if_neg (not_not_intro hv)]
    by_cases ht : t = u
    · rw [if_pos ht]
      exact ⟨h, fun _ => ⟨rfl, "Cannot match with yourself", rfl⟩⟩
    · rw [if_neg ht]
      refine ⟨?_, fun h' => absurd h' ht⟩
      dsimp only
      split
      · next existing_match hfind =>
        have hkey : existing_match.user_id_1 = min u t ∧
            existing_match.user_id_2 = max u t := by
          simpa using List.find?_some hfind
        refine pairInv_map_ids st _ ?_ h
        intro m
        by_cases hm : m.user_id_1 = min u t ∧ m.user_id_2 = max u t
        · rw [if_pos hm]
          exact ⟨by rw [hkey.1, hm.1], by rw [hkey.2, hm.2]⟩
        · rw [if_neg hm]
          exact ⟨rfl, rfl⟩
      · next hfind =>
        have hmm : min u t < max u t := min_lt_max.mpr (Ne.symm ht)
        have hnew : ∀ x ∈ st,
            ¬(x.user_id_1 = min u t ∧ x.user_id_2 = max u t) := by
          intro x hx hc
          exact absurd (decide_eq_true hc) (by
            simpa using List.find?_eq_none.mp hfind x hx)
        by_cases hl : act = "like"
        · rw [if_pos hl]
          exact pairInv_append st _ h hmm hnew
        · rw [if_neg hl]
          exact pairInv_append st _ h hmm hnew
  · rw [if_pos hv]
    exact ⟨h, fun _ => ⟨rfl, "Invalid action. Must be 'like' or 'pass'", rfl⟩⟩

/-- Witness for C10: the invariant holds after a first like on an empty
table, applied at concrete ids `1` and `2`. -/
theorem match_action_pair_invariant_witness :
    PairInv (matchActionPost (fun _ => none) (fun _ _ => 0)
      ([] : List (Match ℕ)) [] 1 2 "like").matches_table :=
  (match_action_pair_invariant (fun _ => none) (fun _ _ => 0) [] [] 1 2 "like"
    ⟨by simp, List.Pairwise.nil⟩).1

theorem cacheGet_invalidate_self {ID : Type} [LinearOrder ID] (u : ID)
    (c : CacheState ID) (k : DiscoverKey ID) (hk : k.user_id = u) :
    cacheGet (invalidate_user_cache u c) k = none := by
  unfold cacheGet invalidate_user_cache
  rw [List.find?_eq_none.mpr]
  · rfl
  · intro e he hdec
    have h1 := (List.mem_filter.mp he).2
    have h2 : e.1 = k := of_decide_eq_true hdec
    exact absurd (h2 ▸ hk) (by simpa using h1)

theorem cacheGet_invalidate_of_none {ID : Type} [LinearOrder ID] (v : ID)
    (c : CacheState ID) (k : DiscoverKey ID) (h : cacheGet c k = none) :
    cacheGet (invalidate_user_cache v c) k = none := by
  unfold cacheGet invalidate_user_cache
  unfold cacheGet at h
  have hev := Option.map_eq_none'.mp h
  rw [List.find?_eq_none.mpr]
  · rfl
  · intro e he hdec
    exact absurd hdec (by simp [List.find?_eq_none.mp hev e (List.mem_filter.mp he).1])

/-- C3 counterexample: user 1 passes user 2 with no prior record; the
handler invalidates only user 1's cache, and a subsequent discovery call
for user 2 is served its stale cached payload, which still contains the
just-declined user 1. -/
theorem first_pass_leaves_target_cache_stale :
    let key : DiscoverKey ℕ := ⟨2, 2, none, none, none⟩
    let stale : MatchEntry ℕ := ⟨1, "U", 50, "cached"⟩
    let r := matchActionPost (fun _ => none) (fun _ _ => 0) []
      [(key, [stale])] 1 2 "pass"
    r.matches_table = [⟨1, 2, .declined, 0⟩] ∧
    r.resp = .ok "declined" false ∧
    discover envBase r.cache 2 2 none none none =
      (.ok [stale] "Matches retrieved successfully (cached)", r.cache) ∧
    stale.user_id = 1 := by
  decide

/-- C3 (amended): after any valid non-self action the acting user's cached
discovery results are invalidated; the target's cached results are also
invalidated when the action is a like or when a record for the pair already
exists — but a pass that creates a fresh record leaves the target's cache
untouched. -/
theorem match_action_cache_invalidation {ID : Type} [LinearOrder ID]
    (profiles : ID → Option (Profile ID)) (sim : List ℚ → List ℚ → ℚ)
    (st : List (Match ID)) (cache : CacheState ID) (u t : ID) (act : String)
    (hvalid : act = "like" ∨ act = "pass" ∨ act = "declined") (hne : t ≠ u) :
    (∀ k : DiscoverKey ID, k.user_id = u →
      cacheGet (matchActionPost profiles sim st cache u t act).cache k = none) ∧
    ((act = "like" ∨ (st.find? fun m =>
        decide (m.user_id_1 = min u t ∧ m.user_id_2 = max u t)).isSome = true) →
      ∀ k : DiscoverKey ID, k.user_id = u ∨ k.user_id = t →
        cacheGet (matchActionPost profiles sim st cache u t act).cache k = none) := by
  unfold matchActionPost
  rw [if_neg (not_not_intro hvalid), if_neg hne]
  dsimp only
  constructor
  · intro k hk
    split
    · exact cacheGet_invalidate_of_none t _ k (cacheGet_invalidate_self u cache k hk)
    · by_cases hl : act = "like"
      · rw [if_pos hl]
        exact cacheGet_invalidate_of_none t _ k (cacheGet_invalidate_self u cache k hk)
      · rw [if_neg hl]
        exact cacheGet_invalidate_self u cache k hk
  · intro hcase k hk
    split
    · rcases hk with hk | hk
      · exact cacheGet_invalidate_of_none t _ k (cacheGet_invalidate_self u cache k hk)
      · exact cacheGet_invalidate_self t _ k hk
    · next hfind =>
      rcases hcase with hcase | hcase
      · rw [if_pos hcase]
        rcases hk with hk | hk
        · exact cacheGet_invalidate_of_none t _ k (cacheGet_invalidate_self u cache k hk)
        · exact cacheGet_invalidate_self t _ k hk
      · rw [hfind] at hcase
        exact absurd hcase (by simp)

/-- Witness for the amended C3: after user 1 likes user 2, a cached
discovery entry keyed to user 1 is gone. -/
theorem match_action_cache_invalidation_witness :
    cacheGet (matchActionPost (fun _ => none) (fun _ _ => 0)
      ([] : List (Match ℕ)) [(⟨1, 2, none, none, none⟩, [])] 1 2 "like").cache
      ⟨1, 2, none, none, none⟩ = none :=
  (match_action_cache_invalidation (fun _ => none) (fun _ _ => 0) []
    [(⟨1, 2, none, none, none⟩, [])] 1 2 "like" (Or.inl rfl) (by decide)).1
    ⟨1, 2, none, none, none⟩ rfl

/-- C5: the existing-interaction filter keeps exactly the candidates whose
id does not appear with the requester (in either position) in any
interaction record, regardless of status — provided no record is a
self-pair, which the canonical-pair invariant guarantees. -/
theorem filter_existing_exact {ID : Type} [LinearOrder ID] (user_id : ID)
    (table : List (Match ID)) (potential : List (Profile ID × ℚ))
    (hself : ∀ m ∈ table, m.user_id_1 ≠ m.user_id_2) :
    filterPotential user_id table potential =
      potential.filter fun ps =>
        decide (¬ ∃ m ∈ table, pairedWith user_id ps.1.user_id m) := by
  unfold filterPotential
  dsimp only
  apply List.filter_congr
  intro ps _
  have hiff : inExistingSet user_id (table.filter fun m =>
      decide (m.user_id_1 = user_id) || decide (m.user_id_2 = user_id))
      ps.1.user_id = true ↔ ∃ m ∈ table, pairedWith user_id ps.1.user_id m := by
    unfold inExistingSet
    simp only [Bool.and_eq_true, decide_eq_true_eq, List.any_eq_true,
      List.mem_filter, Bool.or_eq_true]
    constructor
    · rintro ⟨hxu, m, ⟨hmt, hinv⟩, hpm⟩
      refine ⟨m, hmt, ?_⟩
      rcases hinv with h1 | h1 <;> rcases hpm with h2 | h2
      · exact absurd (h2.symm.trans h1) hxu
      · exact Or.inl ⟨h1, h2⟩
      · exact Or.inr ⟨h1, h2⟩
      · exact absurd (h2.symm.trans h1) hxu
    · rintro ⟨m, hmt, hpw⟩
      rcases hpw with ⟨h1, h2⟩ | ⟨h1, h2⟩
      · refine ⟨fun hx => hself m hmt (h1.trans (hx ▸ h2).symm), m,
          ⟨hmt, Or.inl h1⟩, Or.inr h2⟩
      · refine ⟨fun hx => hself m hmt ((hx ▸ h2).trans h1.symm), m,
          ⟨hmt, Or.inr h1⟩, Or.inl h2⟩
  by_cases hp : ∃ m ∈ table, pairedWith user_id ps.1.user_id m
  · rw [hiff.mpr hp]
    simp [hp]
  · have hb : inExistingSet user_id (table.filter fun m =>
        decide (m.user_id_1 = user_id) || decide (m.user_id_2 = user_id))
        ps.1.user_id = false := by
      cases hb : inExistingSet user_id (table.filter fun m =>
          decide (m.user_id_1 = user_id) || decide (m.user_id_2 = user_id))
          ps.1.user_id
      · rfl
      · exact absurd (hiff.mp hb) hp
    rw [hb]
    simp [hp]

/-- Witness for C5 at the spec's example: interactions `(U,A)` declined and
`(U,B)` matched, candidates `[A, B, C]`, filtering for `U` yields `[C]`. -/
theorem filter_existing_exact_witness :
    filterPotential 1 tableC5 potentialC5 =
      (potentialC5.filter fun ps =>
        decide (¬ ∃ m ∈ tableC5, pairedWith 1 ps.1.user_id m)) ∧
    filterPotential 1 tableC5 potentialC5 = [(sampleProfile 4, 3/10)] :=
  ⟨filter_existing_exact 1 tableC5 potentialC5 (by decide), by rfl⟩

/-- C8: on a cache miss with the requesting user present, discovery fails
with the 404 response when the profile row is absent, and with the
distinct, actionable 400 response when the profile exists but has no
embedding — in particular the no-embedding case never produces the
generic 500. -/
theorem discover_profile_errors {ID : Type} [LinearOrder ID] (env : DataEnv ID)
    (cache : CacheState ID) (u : ID) (lim : ℕ) (ma mb : Option ℤ)
    (g : Option String) (user : User ID)
    (hmiss : cacheGet cache ⟨u, lim, ma, mb, g⟩ = none)
    (huser : env.getUser u = .ok (some user)) :
    (env.getProfile u = .ok none →
      discover env cache u lim ma mb g = (.err "Profile not found" 404, cache)) ∧
    (∀ p : Profile ID, env.getProfile u = .ok (some p) → p.embedding = none →
      discover env cache u lim ma mb g =
        (.err "Please complete your profile to get matches" 400, cache)) := by
  constructor
  · intro hp
    unfold discover
    dsimp only
    rw [hmiss]
    dsimp only
    rw [huser]
    simp only [bind, Except.bind]
    rw [hp]
    rfl
  · intro p hp he
    unfold discover
    dsimp only
    rw [hmiss]
    dsimp only
    rw [huser]
    simp only [bind, Except.bind]
    rw [hp]
    dsimp only
    rw [he]
    rfl

/-- Witness for C8: concrete environments exercising the 404 branch
(absent profile) and the 400 branch (profile without embedding). -/
theorem discover_profile_errors_witness :
    discover envNoProfile [] 1 2 none none none =
      (.err "Profile not found" 404, []) ∧
    discover envNoEmbedding [] 1 2 none none none =
      (.err "Please complete your profile to get matches" 400, []) :=
  ⟨(discover_profile_errors envNoProfile [] 1 2 none none none ⟨1, "U"⟩
      rfl rfl).1 rfl,
   (discover_profile_errors envNoEmbedding [] 1 2 none none none ⟨1, "U"⟩
      rfl rfl).2 { sampleProfile 1 with embedding := none } rfl rfl⟩

theorem gpm_scan_error {ID : Type} [LinearOrder ID] (env : DataEnv ID)
    (u : ID) (lim : ℕ) (ma mb : Option ℤ) (g : Option String)
    (p : Profile ID) (emb : List ℚ)
    (hp : env.getProfile u = .ok (some p)) (he : p.embedding = some emb)
    (hs : env.scanProfiles = .error ()) :
    get_potential_matches env u lim ma mb g = [] := by
  obtain ⟨pid, page, pgen, pb, pi, pl, pe⟩ := p
  dsimp only at he
  subst he
  unfold get_potential_matches
  rw [hp, hs]
  rfl

/-- C4 counterexample: with the requester's user row, profile and embedding
all present but the candidate scan of the embedding store unreachable, the
discovery request does not abort with the 500 response — the failure is
swallowed inside `get_potential_matches` and discovery returns a
successful empty match list. -/
theorem scan_failure_returns_success_empty :
    discover envScanDown [] 1 2 none none none =
      (.ok [] "No matches found at this time. Check back soon!", []) := by
  rfl

/-- C4 (amended): a users-store or profile-store failure in the handler and
an interaction-store failure all abort discovery with the generic 500
response, but a failure of the candidate scan inside the ranking helper is
swallowed and discovery returns a successful empty list instead. -/
theorem data_layer_failure_behavior {ID : Type} [LinearOrder ID]
    (env : DataEnv ID) (cache : CacheState ID) (u : ID) (lim : ℕ)
    (ma mb : Option ℤ) (g : Option String)
    (hmiss : cacheGet cache ⟨u, lim, ma, mb, g⟩ = none) :
    (env.getUser u = .error () →
      discover env cache u lim ma mb g =
        (.err "Failed to find matches" 500, cache)) ∧
    (∀ user : User ID, env.getUser u = .ok (some user) →
      env.getProfile u = .error () →
      discover env cache u lim ma mb g =
        (.err "Failed to find matches" 500, cache)) ∧
    (∀ (user : User ID) (p : Profile ID) (emb : List ℚ),
      env.getUser u = .ok (some user) → env.getProfile u = .ok (some p) →
      p.embedding = some emb → env.scanProfiles = .error () →
      discover env cache u lim ma mb g =
        (.ok [] "No matches found at this time. Check back soon!", cache)) ∧
    (∀ (user : User ID) (p : Profile ID) (emb : List ℚ),
      env.getUser u = .ok (some user) → env.getProfile u = .ok (some p) →
      p.embedding = some emb → env.matchTable = .error () →
      get_potential_matches env u (lim * 2) ma mb g ≠ [] →
      discover env cache u lim ma mb g =
        (.err "Failed to find matches" 500, cache)) := by
  refine ⟨?_, ?_, ?_, ?_⟩
  · intro hu
    unfold discover
    dsimp only
    rw [hmiss]
    dsimp only
    rw [hu]
    rfl
  · intro user huser hpe
    unfold discover
    dsimp only
    rw [hmiss]
    dsimp only
    rw [huser]
    simp only [bind, Except.bind]
    rw [hpe]
  · intro user p emb huser hp he hs
    have hgpm := gpm_scan_error env u (lim * 2) ma mb g p emb hp he hs
    obtain ⟨pid, page, pgen, pb, pi, pl, pe⟩ := p
    dsimp only at he
    subst he
    unfold discover
    dsimp only
    rw [hmiss]
    dsimp only
    rw [huser]
    simp only [bind, Except.bind]
    rw [hp, hgpm]
    rfl
  · intro user p emb huser hp he ht hpot
    obtain ⟨pid, page, pgen, pb, pi, pl, pe⟩ := p
    dsimp only at he
    subst he
    unfold discover
    dsimp only
    rw [hmiss]
    dsimp only
    rw [huser, hp]
    simp only [if_neg hpot]
    rw [ht]
    rfl

/-- Witness for the amended C4: the interaction store being unreachable
aborts a discovery that has candidates with the 500 response. -/
theorem data_layer_failure_behavior_witness :
    discover envTableDown [] 1 2 none none none =
      (.err "Failed to find matches" 500, []) :=
  (data_layer_failure_behavior envTableDown [] 1 2 none none none rfl).2.2.2
    ⟨1, "U"⟩ (sampleProfile 1) [1] rfl rfl rfl rfl (by decide)

theorem buildMatchesData_explain_error {ID : Type} [LinearOrder ID]
    (env envF : DataEnv ID) (up : Profile ID)
    (hgu : envF.getUser = env.getUser)
    (hgk : envF.geminiKey = env.geminiKey)
    (hex : envF.explain = fun _ _ _ => .error ())
    (ps : List (Profile ID × ℚ)) :
    buildMatchesData envF up ps =
      (buildMatchesData env up ps).map (List.map fun e =>
        { e with ai_explanation :=
            generate_match_explanation env.geminiKey (.error ()) }) := by
  induction ps with
  | nil => rfl
  | cons hd tl ih =>
    obtain ⟨p, s⟩ := hd
    simp only [buildMatchesData]
    rw [hgu, hgk, hex]
    cases hu : env.getUser p.user_id with
    | error e => rfl
    | ok mu? =>
      cases mu? with
      | none =>
        simp only [bind, Except.bind]
        exact ih
      | some mu =>
        simp only [bind, Except.bind]
        rw [ih]
        cases hb : buildMatchesData env up tl with
        | error e => rfl
        | ok rest => rfl

theorem discover_explain_error_shape {ID : Type} [LinearOrder ID]
    (env : DataEnv ID) (cache : CacheState ID) (u : ID) (lim : ℕ)
    (ma mb : Option ℤ) (g : Option String)
    (hmiss : cacheGet cache ⟨u, lim, ma, mb, g⟩ = none) :
    (discover { env with explain := fun _ _ _ => .error () } cache u lim ma mb g).1 =
      DiscoverResp.withExplanations
        (generate_match_explanation env.geminiKey (.error ()))
        (discover env cache u lim ma mb g).1 := by
  have hgpm : ∀ l : ℕ,
      get_potential_matches { env with explain := fun _ _ _ => .error () }
        u l ma mb g = get_potential_matches env u l ma mb g := fun _ => rfl
  unfold discover
  dsimp only
  rw [hmiss]
  dsimp only
  rw [hgpm]
  cases hu : env.getUser u with
  | error e => rfl
  | ok user? =>
    cases user? with
    | none => rfl
    | some user =>
      simp only [bind, Except.bind]
      cases hp : env.getProfile u with
      | error e => rfl
      | ok prof? =>
        cases prof? with
        | none => rfl
        | some user_profile =>
          dsimp only
          cases he : user_profile.embedding with
          | none => rfl
          | some uemb =>
            by_cases hpot : get_potential_matches env u (lim * 2) ma mb g = []
            · simp only [if_pos hpot]
              rfl
            · simp only [if_neg hpot]
              cases ht : env.matchTable with
              | error e => rfl
              | ok table =>
                simp only [bind, Except.bind]
                by_cases hfil : (filterPotential u table
                    (get_potential_matches env u (lim * 2) ma mb g)).take lim = []
                · simp only [if_pos hfil]
                  rfl
                · simp only [if_neg hfil]
                  rw [buildMatchesData_explain_error env
                    { env with matchTable := Except.ok table, explain := fun _ _ _ => Except.error () }
                    user_profile rfl rfl rfl]
                  cases hb : buildMatchesData env user_profile
                      ((filterPotential u table
                        (get_potential_matches env u (lim * 2) ma mb g)).take lim) with
                  | error e => rfl
                  | ok entries =>
                    simp only [bind, Except.bind, Except.map]
                    rw [List.length_map]
                    rfl

/-- C9: a run of discovery whose explanation service always fails is a
success exactly when the same run with the real service is, and every
entry it returns carries the deterministic, non-empty fallback string
(the fixed fallback sentence, or the unavailable notice when no API key
is configured) — an explanation failure never fails the request. -/
theorem explanation_failure_harmless {ID : Type} [LinearOrder ID]
    (env : DataEnv ID) (cache : CacheState ID) (u : ID) (lim : ℕ)
    (ma mb : Option ℤ) (g : Option String)
    (hmiss : cacheGet cache ⟨u, lim, ma, mb, g⟩ = none) :
    ((discover { env with explain := fun _ _ _ => .error () } cache u lim ma mb g).1.isOk =
      (discover env cache u lim ma mb g).1.isOk) ∧
    (∀ e ∈ (discover { env with explain := fun _ _ _ => .error () }
        cache u lim ma mb g).1.payloadOf,
      e.ai_explanation =
        (if env.geminiKey then
          "You both share similar interests and values, making you a great potential match!"
        else "AI matching is currently unavailable.") ∧
      e.ai_explanation ≠ "") := by
  have hshape := discover_explain_error_shape env cache u lim ma mb g hmiss
  have hgen : generate_match_explanation env.geminiKey (Except.error ()) =
      (if env.geminiKey then
        "You both share similar interests and values, making you a great potential match!"
      else "AI matching is currently unavailable.") := by
    cases env.geminiKey <;> rfl
  constructor
  · rw [hshape]
    cases (discover env cache u lim ma mb g).1 <;> rfl
  · intro e he
    rw [hshape] at he
    cases hr : (discover env cache u lim ma mb g).1 with
    | ok l m =>
      rw [hr] at he
      simp only [DiscoverResp.withExplanations, DiscoverResp.payloadOf] at he
      obtain ⟨x, hx, rfl⟩ := List.mem_map.mp he
      refine ⟨by dsimp only; rw [hgen], ?_⟩
      dsimp only
      rw [hgen]
      cases env.geminiKey <;> simp
    | err m c =>
      rw [hr] at he
      simp only [DiscoverResp.withExplanations, DiscoverResp.payloadOf] at he
      exact absurd he (List.not_mem_nil e)

/-- Witness for C9: with the base environment and an empty cache, the
always-failing explanation service yields the same success status as the
working one. -/
theorem explanation_failure_harmless_witness :
    (discover { envBase with explain := fun _ _ _ => .error () }
        [] 1 2 none none none).1.isOk =
      (discover envBase [] 1 2 none none none).1.isOk :=
  (explanation_failure_harmless envBase [] 1 2 none none none rfl).1

end PathToForever
